import Mathlib

/-
  Verification of the direct-method MQTT client
  (packages/sdk-python/src/direct_method_mqtt/client.py).

  The development is a shallow embedding of the class
  DirectMethodMqttClient.  The paho protocol engine is an external
  collaborator: its calls are modelled by explicit outcome parameters
  (an engine call either raises, modelled as Except.error, or returns a
  result code) and by the list of engine actions a method emits.
  Python exceptions are modelled by the PyExc structure carrying the
  exception class and the message text.
-/

namespace DirectMethodMqtt

/-- The Python exception classes that the client raises:
ValueError (validation), RuntimeError (not-connected precondition and
engine-reported publish/subscribe failures), ConnectionError (connect
failures). -/
inductive ExcClass where
  | valueError
  | runtimeError
  | connectionError
  deriving DecidableEq, Repr

/-- A raised Python exception: its class and its message text. -/
structure PyExc where
  cls : ExcClass
  msg : String
  deriving DecidableEq, Repr

/-- The class of the exception of a failed call, none on success. -/
def excClassOf {α : Type} (r : Except PyExc α) : Option ExcClass :=
  match r with
  | .error e => some e.cls
  | .ok _ => none

/-- The characters stripped by Python str.strip() with no argument:
every Unicode whitespace character, i.e. every c with c.isspace() true
in CPython: U+0009-U+000D (tab, line feed, vertical tab, form feed,
carriage return), U+001C-U+001F (the four separator controls), U+0020
(space), U+0085 (next line), U+00A0 (no-break space), U+1680 (ogham
space mark), U+2000-U+200A (the typographic spaces), U+2028 (line
separator), U+2029 (paragraph separator), U+202F (narrow no-break
space), U+205F (medium mathematical space), U+3000 (ideographic
space). -/
def isPySpace (c : Char) : Bool :=
  decide (0x09 ≤ c.toNat ∧ c.toNat ≤ 0x0D) ||
    decide (0x1C ≤ c.toNat ∧ c.toNat ≤ 0x1F) ||
    c.toNat == 0x20 || c.toNat == 0x85 || c.toNat == 0xA0 ||
    c.toNat == 0x1680 ||
    decide (0x2000 ≤ c.toNat ∧ c.toNat ≤ 0x200A) ||
    c.toNat == 0x2028 || c.toNat == 0x2029 || c.toNat == 0x202F ||
    c.toNat == 0x205F || c.toNat == 0x3000

/-- Python str.strip(): drop whitespace from both ends
(client.py lines 56 and 62 call broker_host.strip() / topic.strip()). -/
def pyStrip (s : String) : List Char :=
  ((s.toList.dropWhile isPySpace).reverse.dropWhile isPySpace).reverse

/-- The state a freshly constructed DirectMethodMqttClient holds
(client.py lines 65-75); the paho client object itself is the external
engine and is not part of the state. -/
structure ClientState where
  brokerHost : String
  brokerPort : Int
  topic : String
  is_connected : Bool
  deriving DecidableEq, Repr

/-- DirectMethodMqttClient.__init__ (client.py lines 38-86).
Validation happens before the paho client is even created, so a
validation failure performs no network activity; the model is a pure
function emitting no engine action. -/
def initClient (broker_host : String) (broker_port : Int) (topic : String) :
    Except PyExc ClientState :=
  if (pyStrip broker_host).isEmpty then
    .error ⟨.valueError, "Broker host cannot be empty"⟩
  else if ¬ (1 ≤ broker_port ∧ broker_port ≤ 65535) then
    .error ⟨.valueError, "Broker port must be between 1 and 65535"⟩
  else if (pyStrip topic).isEmpty then
    .error ⟨.valueError, "Topic cannot be empty"⟩
  else
    .ok { brokerHost := broker_host, brokerPort := broker_port,
          topic := topic, is_connected := false }

lemma pyStrip_eq_nil_of_all_space {s : String}
    (h : ∀ c ∈ s.toList, isPySpace c = true) : pyStrip s = [] := by
  have h1 : s.toList.dropWhile isPySpace = [] :=
    List.dropWhile_eq_nil_iff.mpr h
  unfold pyStrip
  rw [h1]
  rfl

/-- For C9: the triple is valid in the sense of the specification
(host and topic non-empty as strings, port within 1..65535). -/
def specValid (host : String) (port : Int) (topic : String) : Prop :=
  host ≠ "" ∧ 1 ≤ port ∧ port ≤ 65535 ∧ topic ≠ ""

/-- For C9 as amended: the triple passes the validation the code
actually performs (whitespace-stripped host and topic non-empty,
port within 1..65535). -/
def codeValid (host : String) (port : Int) (topic : String) : Prop :=
  pyStrip host ≠ [] ∧ 1 ≤ port ∧ port ≤ 65535 ∧ pyStrip topic ≠ []

/-- C9 counterexample: the host string made of a single blank is valid in
the sense of the specification (it is not empty, and port and topic are
fine), yet construction fails with ValueError, so it is not true that
every spec-valid triple constructs successfully. -/
theorem initClient_rejects_blank_host :
    specValid " " 1883 "test/topic" ∧
      initClient " " 1883 "test/topic" =
        .error ⟨.valueError, "Broker host cannot be empty"⟩ := by
  constructor
  · refine ⟨by decide, by decide, by decide, by decide⟩
  · rfl

/-- C9 amended: construction with an empty (after stripping) broker host,
a port outside 1..65535, or an empty (after stripping) topic fails with a
ValueError-class condition and performs no network activity, and every
triple passing the validation the code performs constructs successfully
with is_connected false. -/
theorem initClient_validation (host : String) (port : Int) (topic : String) :
    (pyStrip host = [] ∨ ¬ (1 ≤ port ∧ port ≤ 65535) ∨ pyStrip topic = [] →
      ∃ m, initClient host port topic = .error ⟨.valueError, m⟩) ∧
    (codeValid host port topic →
      initClient host port topic =
        .ok { brokerHost := host, brokerPort := port, topic := topic,
              is_connected := false }) := by
  constructor
  · intro h
    unfold initClient
    rcases h with h | h | h
    · simp [h]
    · by_cases hh : (pyStrip host).isEmpty
      · simp [hh]
      · simp [hh, h]
    · by_cases hh : (pyStrip host).isEmpty
      · simp [hh]
      · by_cases hp : 1 ≤ port ∧ port ≤ 65535
        · simp [hh, hp, h]
        · simp [hh, hp]
  · rintro ⟨h1, h2, h3, h4⟩
    unfold initClient
    simp [List.isEmpty_iff, h1, h4, h2, h3]

/-- C9 amended, witness: both branches applied on concrete inputs: the
empty host fails, and a concrete code-valid triple succeeds with
is_connected false. -/
theorem initClient_validation_witness :
    (∃ m, initClient "" 1883 "test/topic" = .error ⟨.valueError, m⟩) ∧
      initClient "localhost" 1883 "test/topic" =
        .ok { brokerHost := "localhost", brokerPort := 1883,
              topic := "test/topic", is_connected := false } :=
  ⟨(initClient_validation "" 1883 "test/topic").1 (Or.inl (by decide)),
   (initClient_validation "localhost" 1883 "test/topic").2
     ⟨by decide, by decide, by decide, by decide⟩⟩

/-- C10: a broker host or topic consisting only of whitespace is rejected
with ValueError, because the validation tests the whitespace-stripped
string; this is strictly stronger than rejecting only the empty string. -/
theorem initClient_rejects_whitespace_only (h t : String)
    (hh : ∀ c ∈ h.toList, isPySpace c = true)
    (ht : ∀ c ∈ t.toList, isPySpace c = true) :
    initClient h 1883 "test/topic" =
        .error ⟨.valueError, "Broker host cannot be empty"⟩ ∧
      initClient "localhost" 1883 t =
        .error ⟨.valueError, "Topic cannot be empty"⟩ := by
  have h1 := pyStrip_eq_nil_of_all_space hh
  have h2 := pyStrip_eq_nil_of_all_space ht
  constructor
  · unfold initClient
    simp [h1]
  · unfold initClient
    simp [h2]
    decide

/-- C10 witness: the single-blank host and the topic made of one
no-break space (U+00A0), both nonempty strings of whitespace only, are
rejected. -/
theorem initClient_rejects_whitespace_only_witness :
    initClient " " 1883 "test/topic" =
        .error ⟨.valueError, "Broker host cannot be empty"⟩ ∧
      initClient "localhost" 1883 "\u00A0" =
        .error ⟨.valueError, "Topic cannot be empty"⟩ :=
  initClient_rejects_whitespace_only " " "\u00A0" (by decide) (by decide)

/-
  The connect-lifecycle state machine (C1).

  The only writes to self._is_connected in client.py are:
  - _on_connect (lines 248-256): rc == 0 sets True, otherwise sets False;
  - _on_disconnect (lines 258-264): always sets False;
  - disconnect (lines 134-149): when connected, sets False on both the
    normal and the exception path; when not connected it returns early,
    leaving the flag False.
  connect, publish, subscribe and _on_message only read the flag.
-/

/-- One operation of the caller or one event dispatched by the engine. -/
inductive Ev where
  | onConnect (rc : Int)
  | onDisconnect (rc : Int)
  | opDisconnect
  | opConnect
  | opPublish
  | opSubscribe
  | onMessage
  deriving DecidableEq, Repr

/-- How one operation or dispatched event updates the _is_connected flag
(the union of the writes listed above; every other operation leaves the
flag unchanged). -/
def stepConnected (b : Bool) : Ev → Bool
  | .onConnect rc => rc == 0
  | .onDisconnect _ => false
  | .opDisconnect => false
  | _ => b

/-- The _is_connected flag after a sequence of operations and events,
starting from the constructor state (flag False, client.py line 74). -/
def runConnected (evs : List Ev) : Bool :=
  evs.foldl stepConnected false

/-- Whether an operation or event writes the _is_connected flag. -/
def setsFlag : Ev → Bool
  | .onConnect _ => true
  | .onDisconnect _ => true
  | .opDisconnect => true
  | _ => false

/-- The last flag-writing operation or event of a trace, if any. -/
def lastFlagEvent : List Ev → Option Ev
  | [] => none
  | e :: es =>
    match lastFlagEvent es with
    | some x => some x
    | none => if setsFlag e then some e else none

lemma foldl_stepConnected_eq (evs : List Ev) : ∀ b : Bool,
    evs.foldl stepConnected b =
      (match lastFlagEvent evs with
       | none => b
       | some (.onConnect rc) => rc == 0
       | some _ => false) := by
  induction evs with
  | nil => intro b; rfl
  | cons e es ih =>
    intro b
    rw [List.foldl_cons, ih (stepConnected b e)]
    cases hl : lastFlagEvent es with
    | some x => cases x <;> simp [lastFlagEvent, hl]
    | none =>
      cases e <;> simp [lastFlagEvent, hl, setsFlag, stepConnected]

/-- C1: the connected flag is false at construction; the on-connect
handler sets it to (rc == 0), so only result code 0 makes it true and a
nonzero code leaves it false; the on-disconnect handler sets it false
for every reason code; and over every sequence of operations and
dispatched events, is_connected is true exactly when the most recent
flag-writing event of the trace is an on-connect with result code 0,
i.e. true only between a successful connect-acknowledgment and a
disconnect or network failure. -/
theorem connected_lifecycle :
    runConnected [] = false ∧
    (∀ b : Bool, ∀ rc : Int, stepConnected b (.onConnect rc) = (rc == 0)) ∧
    (∀ b : Bool, ∀ rc : Int, stepConnected b (.onDisconnect rc) = false) ∧
    (∀ b : Bool, stepConnected b .opDisconnect = false) ∧
    (∀ evs : List Ev,
      runConnected evs = true ↔ lastFlagEvent evs = some (.onConnect 0)) := by
  refine ⟨rfl, fun b rc => rfl, fun b rc => rfl, fun b => rfl, fun evs => ?_⟩
  rw [runConnected, foldl_stepConnected_eq evs false]
  cases hl : lastFlagEvent evs with
  | none => simp
  | some x => cases x <;> simp

/-
  The connect path (client.py lines 88-132).

  Time is modelled in integer milliseconds.  The engine delivers the
  successful connect-acknowledgment (which makes _on_connect set the
  flag) at time connAck, if ever; time.sleep(0.1) advances time by
  100 ms and everything else takes no time.
-/

/-- The value the caller-visible _is_connected flag holds at elapsed
time now, when the successful acknowledgment arrives at time ack
(none when it never arrives). -/
def flagAt (ack : Option Int) (now : Int) : Bool :=
  match ack with
  | none => false
  | some t => decide (t ≤ now)

/-- The wait loop of connect (client.py lines 120-122):
while not self._is_connected and (time.time() - start_time) < timeout:
time.sleep(0.1).  Arguments: acknowledgment time, timeout, current
elapsed time; returns the elapsed time at which the loop exits.
Defined by well-founded recursion, so the loop terminates for every
timeout and every acknowledgment schedule. -/
def waitLoop (ack : Option Int) (timeoutMs : Int) (now : Int) : Int :=
  if flagAt ack now = false ∧ now < timeoutMs then
    waitLoop ack timeoutMs (now + 100)
  else
    now
termination_by (timeoutMs - now).toNat
decreasing_by
  rename_i h
  omega

/-- The observable calls a client method makes into the paho engine. -/
inductive EngineAct where
  | engConnect
  | loopStart
  | loopStop
  | engDisconnect
  deriving DecidableEq, Repr

/-- The environment of one connect attempt: the outcome of the
transport-level self._client.connect call (Except.error models the call
raising, Except.ok rc models it returning result code rc), and the time
at which the engine delivers a successful connect-acknowledgment (none
when the broker never acknowledges). -/
structure ConnectEnv where
  connectResult : Except String Int
  connAck : Option Int
  deriving Repr

/-- The outcome of one connect call: the raised exception or normal
return, the _is_connected flag afterwards, and the engine calls made. -/
structure ConnectOut where
  result : Except PyExc Unit
  is_connected : Bool
  acts : List EngineAct
  deriving Repr

/-- A model of paho mqtt.error_string: the external engine turns a
result code into descriptive text; only its dependence on the code
matters to the client. -/
def mqttErrorString (rc : Int) : String :=
  "mqtt error code " ++ toString rc

/-- DirectMethodMqttClient.connect (client.py lines 88-132).  Already
connected: early no-op return (lines 99-101).  The transport connect
raising is caught at line 128, which stops the loop and wraps the
exception into ConnectionError (line 132).  A nonzero synchronous
result code raises ConnectionError at line 114, re-raised at line 131
after the handler stops the loop.  Otherwise the loop is started and
the flag polled; if the flag is still false after the wait, the loop is
stopped and ConnectionError raised (lines 124-126). -/
def connect (is_connected : Bool) (timeoutMs : Int) (env : ConnectEnv) :
    ConnectOut :=
  if is_connected then
    ⟨.ok (), true, []⟩
  else
    match env.connectResult with
    | .error e =>
      ⟨.error ⟨.connectionError, "Failed to connect to MQTT broker: " ++ e⟩,
       false, [.engConnect, .loopStop]⟩
    | .ok rc =>
      if rc ≠ 0 then
        ⟨.error ⟨.connectionError,
           "Failed to initiate connection: " ++ mqttErrorString rc⟩,
         false, [.engConnect, .loopStop]⟩
      else
        let fin := waitLoop env.connAck timeoutMs 0
        if flagAt env.connAck fin then
          ⟨.ok (), true, [.engConnect, .loopStart]⟩
        else
          ⟨.error ⟨.connectionError,
             "Connection timeout after " ++ toString timeoutMs ++ " ms"⟩,
           false, [.engConnect, .loopStart, .loopStop]⟩

lemma waitLoop_exit (ack : Option Int) (t now : Int) :
    flagAt ack (waitLoop ack t now) = true ∨ t ≤ waitLoop ack t now := by
  induction now using waitLoop.induct ack t with
  | case1 x h ih =>
    rw [waitLoop, if_pos h]
    exact ih
  | case2 x h =>
    rw [waitLoop, if_neg h]
    rcases Decidable.not_and_iff_or_not.mp h with h1 | h1
    · left
      simpa using h1
    · right
      omega

lemma waitLoop_le (ack : Option Int) (t now : Int) :
    waitLoop ack t now = now ∨ waitLoop ack t now < t + 100 := by
  induction now using waitLoop.induct ack t with
  | case1 x h ih =>
    rw [waitLoop, if_pos h]
    rcases ih with h1 | h1
    · right; omega
    · right; exact h1
  | case2 x h =>
    rw [waitLoop, if_neg h]
    left; rfl

lemma waitLoop_nonpos (ack : Option Int) (t : Int) (ht : t ≤ 0) :
    waitLoop ack t 0 = 0 := by
  rw [waitLoop]
  have h : ¬ (flagAt ack 0 = false ∧ 0 < t) := by
    rintro ⟨h1, h2⟩
    omega
  rw [if_neg h]

/-- C3 counterexample: with a timeout of 50 ms the wait loop of connect
blocks for 100 ms, which exceeds the given timeout, so it is not true
that the loop blocks the caller for at most the given timeout for every
timeout value — one 100 ms sleep always completes once started. -/
theorem connect_wait_exceeds_small_timeout :
    waitLoop none 50 0 = 100 ∧ ¬ ((100 : Int) ≤ 50) := by
  constructor
  · rw [waitLoop]
    norm_num [flagAt]
    rw [waitLoop]
    norm_num [flagAt]
  · decide

/-- C3 amended: the wait loop of connect terminates for every timeout
value and every acknowledgment schedule (the recursion is well-founded),
blocking the caller in 100 ms polling steps for less than the timeout
plus one 100 ms poll interval; a zero or negative timeout terminates
immediately with no blocking; and the loop exits only once the connected
flag is true or the timeout has elapsed. -/
theorem connect_wait_terminates_bounded (ack : Option Int) (timeoutMs : Int) :
    (timeoutMs ≤ 0 → waitLoop ack timeoutMs 0 = 0) ∧
    (0 < timeoutMs → waitLoop ack timeoutMs 0 < timeoutMs + 100) ∧
    (flagAt ack (waitLoop ack timeoutMs 0) = true ∨
      timeoutMs ≤ waitLoop ack timeoutMs 0) := by
  refine ⟨fun ht => waitLoop_nonpos ack timeoutMs ht, fun ht => ?_,
    waitLoop_exit ack timeoutMs 0⟩
  rcases waitLoop_le ack timeoutMs 0 with h | h
  · omega
  · exact h

/-- C3 amended, witness: a negative timeout returns at once, and with a
500 ms timeout and a never-acknowledging broker the loop blocks less
than 600 ms. -/
theorem connect_wait_terminates_bounded_witness :
    waitLoop none (-7) 0 = 0 ∧ waitLoop none 500 0 < 500 + 100 :=
  ⟨(connect_wait_terminates_bounded none (-7)).1 (by decide),
   (connect_wait_terminates_bounded none 500).2.1 (by decide)⟩

/-- C2: connect fails with a ConnectionError on every failure path: a
transport connect call that raises is wrapped into a ConnectionError
carrying the underlying reason; a nonzero synchronous result code gives
a ConnectionError carrying the engine description of the code; an
elapsed timeout without the flag becoming true gives a ConnectionError
indicating timeout; and on every failing run the raised exception is of
class ConnectionError and the network loop has been stopped. -/
theorem connect_failure_paths (timeoutMs : Int) (env : ConnectEnv) :
    (∀ e : String, env.connectResult = .error e →
      (connect false timeoutMs env).result =
        .error ⟨.connectionError, "Failed to connect to MQTT broker: " ++ e⟩) ∧
    (∀ rc : Int, rc ≠ 0 → env.connectResult = .ok rc →
      (connect false timeoutMs env).result =
        .error ⟨.connectionError,
          "Failed to initiate connection: " ++ mqttErrorString rc⟩) ∧
    (env.connectResult = .ok 0 →
      flagAt env.connAck (waitLoop env.connAck timeoutMs 0) = false →
      (connect false timeoutMs env).result =
        .error ⟨.connectionError,
          "Connection timeout after " ++ toString timeoutMs ++ " ms"⟩) ∧
    (∀ exc : PyExc, (connect false timeoutMs env).result = .error exc →
      exc.cls = .connectionError ∧
        EngineAct.loopStop ∈ (connect false timeoutMs env).acts) := by
  refine ⟨fun e he => ?_, fun rc hrc he => ?_, fun he hf => ?_, fun exc hexc => ?_⟩
  · simp [connect, he]
  · simp [connect, he, hrc]
  · simp [connect, he, hf]
  · unfold connect at hexc ⊢
    simp only [if_false, Bool.false_eq_true] at hexc ⊢
    cases he : env.connectResult with
    | error e =>
      simp [he] at hexc ⊢
      rw [← hexc]
    | ok rc =>
      by_cases hrc : rc = 0
      · subst hrc
        simp [he] at hexc ⊢
        by_cases hf : flagAt env.connAck (waitLoop env.connAck timeoutMs 0)
        · simp [hf] at hexc
        · simp [hf] at hexc ⊢
          rw [← hexc]
      · simp [he, hrc] at hexc ⊢
        rw [← hexc]

/-- C2 witness: with a transport connect call that raises, connect
raises a ConnectionError wrapping the reason, of class ConnectionError,
and the loop has been stopped. -/
theorem connect_failure_paths_witness :
    (connect false 5000 ⟨.error "boom", none⟩).result =
        .error ⟨.connectionError, "Failed to connect to MQTT broker: boom"⟩ ∧
      PyExc.cls ⟨.connectionError, "Failed to connect to MQTT broker: boom"⟩ =
          .connectionError ∧
        EngineAct.loopStop ∈ (connect false 5000 ⟨.error "boom", none⟩).acts :=
  ⟨(connect_failure_paths 5000 ⟨.error "boom", none⟩).1 "boom" rfl,
   (connect_failure_paths 5000 ⟨.error "boom", none⟩).2.2.2
     ⟨.connectionError, "Failed to connect to MQTT broker: boom"⟩
     ((connect_failure_paths 5000 ⟨.error "boom", none⟩).1 "boom" rfl)⟩

/-- C8: connect while already connected is an immediate no-op: it
returns normally (not an error), makes no engine call at all (no
transport connect, no loop start), and leaves is_connected true. -/
theorem connect_noop_when_connected (timeoutMs : Int) (env : ConnectEnv) :
    (connect true timeoutMs env).result = .ok () ∧
      (connect true timeoutMs env).acts = [] ∧
      (connect true timeoutMs env).is_connected = true :=
  ⟨rfl, rfl, rfl⟩

/-
  disconnect (client.py lines 134-149).
-/

/-- The outcome of one disconnect call: the raised exception or normal
return, the _is_connected flag afterwards, and the engine calls made. -/
structure DisconnectOut where
  result : Except PyExc Unit
  is_connected : Bool
  acts : List EngineAct
  deriving Repr

/-- DirectMethodMqttClient.disconnect (client.py lines 134-149).
Not connected: early return (lines 137-139), no engine call.  Connected:
the transport disconnect is issued and the loop stopped; teardown is the
pair of engine calls, modelled as raising (Except.error, at the
transport disconnect call) or succeeding.  An exception during teardown
is caught at line 147, logged, and the flag still force-set to false
(line 149); note the loop stop at line 144 is skipped when line 143
raises. -/
def disconnect (is_connected : Bool) (engDisc : Except String Unit) :
    DisconnectOut :=
  if ¬ is_connected then
    ⟨.ok (), is_connected, []⟩
  else
    match engDisc with
    | .ok () => ⟨.ok (), false, [.engDisconnect, .loopStop]⟩
    | .error _ => ⟨.ok (), false, [.engDisconnect]⟩

/-- C4: disconnect never fails observably: for every connection state
and every teardown outcome it returns normally (exceptions during
teardown are absorbed) and is_connected is false after it returns; when
not connected it is a no-op making no engine call; when connected it
issues the transport disconnect, and on a clean teardown also stops the
network loop. -/
theorem disconnect_never_fails (c : Bool) (engDisc : Except String Unit) :
    (disconnect c engDisc).result = .ok () ∧
      (disconnect c engDisc).is_connected = false ∧
      (disconnect false engDisc).acts = [] ∧
      (disconnect true engDisc).acts.head? = some .engDisconnect ∧
      (disconnect true (.ok ())).acts = [.engDisconnect, .loopStop] := by
  refine ⟨?_, ?_, ?_, ?_, rfl⟩
  · cases c with
    | false => rfl
    | true => cases engDisc with
      | ok u => cases u; rfl
      | error e => rfl
  · cases c with
    | false => rfl
    | true => cases engDisc with
      | ok u => cases u; rfl
      | error e => rfl
  · rfl
  · cases engDisc with
    | ok u => cases u; rfl
    | error e => rfl

/-
  publish and subscribe (client.py lines 151-201).
-/

/-- The message of the RuntimeError raised when publish or subscribe is
called while not connected (client.py lines 166 and 188). -/
def notConnectedMsg : String :=
  "Not connected to MQTT broker. Call connect() first."

/-- DirectMethodMqttClient.publish (client.py lines 151-179).  The empty
message is rejected first (lines 162-163, ValueError), then the
connection state (lines 165-166, RuntimeError).  The engine publish
either raises (wrapped into RuntimeError at line 179) or returns a
result whose code is checked; a nonzero code raises RuntimeError at
line 172, re-raised unchanged at line 178. -/
def publish (is_connected : Bool) (message : String)
    (engResult : Except String Int) : Except PyExc Unit :=
  if message.isEmpty then
    .error ⟨.valueError, "Message cannot be empty"⟩
  else if ¬ is_connected then
    .error ⟨.runtimeError, notConnectedMsg⟩
  else
    match engResult with
    | .error e =>
      .error ⟨.runtimeError, "Failed to publish message: " ++ e⟩
    | .ok rc =>
      if rc ≠ 0 then
        .error ⟨.runtimeError,
          "Failed to publish message: " ++ mqttErrorString rc⟩
      else
        .ok ()

/-- DirectMethodMqttClient.subscribe (client.py lines 181-201).  The
connection state is checked first (lines 187-188, RuntimeError); the
engine subscribe either raises (wrapped into RuntimeError at line 201)
or returns a result code; a nonzero code raises RuntimeError at
line 194, re-raised unchanged at line 200. -/
def subscribe (is_connected : Bool) (engResult : Except String Int) :
    Except PyExc Unit :=
  if ¬ is_connected then
    .error ⟨.runtimeError, notConnectedMsg⟩
  else
    match engResult with
    | .error e =>
      .error ⟨.runtimeError, "Failed to subscribe to topic: " ++ e⟩
    | .ok rc =>
      if rc ≠ 0 then
        .error ⟨.runtimeError,
          "Failed to subscribe to topic: " ++ mqttErrorString rc⟩
      else
        .ok ()

/-- C5 counterexample: the exception raised by publish while not
connected and the exception raised by publish on an engine-reported
nonzero result code belong to the same Python class, RuntimeError
(client.py lines 166 and 172), so the two failures are not
distinguishable by the class of the raised error; the same holds for
subscribe (lines 188 and 194). -/
theorem notConnected_class_not_distinct :
    excClassOf (publish false "hello" (.ok 0)) = some .runtimeError ∧
      excClassOf (publish true "hello" (.ok 1)) = some .runtimeError ∧
      excClassOf (publish false "hello" (.ok 0)) =
        excClassOf (publish true "hello" (.ok 1)) ∧
      excClassOf (subscribe false (.ok 0)) =
        excClassOf (subscribe true (.ok 1)) :=
  ⟨rfl, rfl, rfl, rfl⟩

/-- C5 amended: publish and subscribe while not connected fail with a
RuntimeError carrying the fixed not-connected message, raised before any
engine call; an engine-reported nonzero result code also raises a
RuntimeError, carrying a message that starts with the operation-specific
failure text instead — so the two failure kinds share one exception
class and a caller can tell them apart only by the message. -/
theorem notConnected_precondition (message : String)
    (engResult : Except String Int) (hm : ¬ message.isEmpty) :
    publish false message engResult = .error ⟨.runtimeError, notConnectedMsg⟩ ∧
      subscribe false engResult = .error ⟨.runtimeError, notConnectedMsg⟩ ∧
      (∀ rc : Int, rc ≠ 0 →
        publish true message (.ok rc) =
          .error ⟨.runtimeError,
            "Failed to publish message: " ++ mqttErrorString rc⟩) ∧
      (∀ rc : Int, rc ≠ 0 →
        subscribe true (.ok rc) =
          .error ⟨.runtimeError,
            "Failed to subscribe to topic: " ++ mqttErrorString rc⟩) := by
  refine ⟨?_, rfl, fun rc hrc => ?_, fun rc hrc => ?_⟩
  · unfold publish
    simp [hm]
  · unfold publish
    simp [hm, hrc]
  · unfold subscribe
    simp [hrc]

/-- C5 amended, witness: a nonempty message published while not
connected raises the not-connected RuntimeError, and an engine result
code 1 while connected raises the publish-failure RuntimeError. -/
theorem notConnected_precondition_witness :
    publish false "hello" (.ok 0) = .error ⟨.runtimeError, notConnectedMsg⟩ ∧
      publish true "hello" (.ok 1) =
        .error ⟨.runtimeError,
          "Failed to publish message: " ++ mqttErrorString 1⟩ :=
  ⟨(notConnected_precondition "hello" (.ok 0) (by decide)).1,
   (notConnected_precondition "hello" (.ok 0) (by decide)).2.2.1 1 (by decide)⟩

/-- C6: publish with an empty message fails with ValueError for every
connection state and every engine outcome: the empty-payload check at
client.py line 162 runs before the connection-state check at line 165,
so the result is the validation error, not the not-connected
RuntimeError, even while disconnected. -/
theorem publish_empty_message (c : Bool) (engResult : Except String Int) :
    publish c "" engResult = .error ⟨.valueError, "Message cannot be empty"⟩ ∧
      excClassOf (publish c "" engResult) = some .valueError := by
  exact ⟨rfl, rfl⟩

/-
  The on-message handler (client.py lines 266-278).
-/

/-- What the handler body does on one incoming message. -/
inductive MessageAction where
  | callbackInvoked (topic message : String)
  | logged (topic message : String)
  | loggedError (e : String)
  deriving DecidableEq, Repr

/-- The body of the try block of _on_message (client.py lines 268-275):
decode the payload (modelled by its outcome: Except.error is a decode
exception), then invoke the registered callback if any (a callback that
raises is modelled by returning Except.error), else log the message.
An error value here is an exception flying out of the body. -/
def onMessageBody (decodeResult : Except String String)
    (cb : Option (String → String → Except String Unit)) (topic : String) :
    Except String MessageAction :=
  match decodeResult with
  | .error e => .error e
  | .ok message =>
    match cb with
    | some f =>
      match f topic message with
      | .ok _ => .ok (.callbackInvoked topic message)
      | .error e => .error e
    | none => .ok (.logged topic message)

/-- DirectMethodMqttClient._on_message (client.py lines 266-278): the
whole body runs inside try, and the except clause at line 277 catches
every exception and only logs it, so the handler itself never raises. -/
def on_message (decodeResult : Except String String)
    (cb : Option (String → String → Except String Unit)) (topic : String) :
    Except String MessageAction :=
  match onMessageBody decodeResult cb topic with
  | .ok a => .ok a
  | .error e => .ok (.loggedError e)

/-- C7: for every registered callback, every decode outcome and every
topic, the on-message handler returns normally — an exception raised by
the user callback or by payload decoding is caught and turned into a
logged error, never propagated into the engine network loop; when the
callback raises e the handler returns having logged e, and likewise for
a decode failure. -/
theorem on_message_never_raises (decodeResult : Except String String)
    (cb : Option (String → String → Except String Unit)) (topic : String) :
    (on_message decodeResult cb topic).isOk = true ∧
      (∀ e : String, ∀ m : String,
        on_message (.ok m) (some fun _ _ => .error e) topic =
          .ok (.loggedError e)) ∧
      (∀ e : String, on_message (.error e) cb topic = .ok (.loggedError e)) ∧
      (∀ m : String,
        on_message (.ok m) (some fun _ _ => .ok ()) topic =
          .ok (.callbackInvoked topic m)) ∧
      (∀ m : String, on_message (.ok m) none topic = .ok (.logged topic m)) := by
  refine ⟨?_, fun e m => rfl, fun e => rfl, fun m => rfl, fun m => rfl⟩
  unfold on_message
  cases h : onMessageBody decodeResult cb topic with
  | ok a => rfl
  | error e => rfl

end DirectMethodMqtt
